import Mathlib

/-!
Verification of the GRP ring-stiffness test machine bridge against its
natural-language specification.

The repository ships the React/TypeScript operator UI (under
`frontend/src`) and the PLC integration guide (`docs/PLC.md`), which quotes
the Python backend classes `PLCConnector`, `DataService` and
`CommandService`.  The backend process itself is not part of the source
tree, so where a claim is decided by backend behaviour that is only
described by the specification, the corresponding definition is modelled
from the spec and marked as such in its doc comment.

Conventions of the embedding:
- PLC bytes are natural numbers; where a byte is arbitrary it is taken
  from `Fin 256` or guarded by `< 256`.
- DB3 (the servo-control data block) is modelled as a function from byte
  offset to byte value.
- Jog-velocity and keypad values are rationals (the UI manipulates IEEE
  doubles only through parse/compare/forward, on which ℚ is exact).
-/

namespace GRP

/-- snap7 `set_bool(bytearray, byte_index, bool_index, value)` as used by
`PLCConnector.write_bool` (docs/PLC.md): sets the bit with `byte |= (1 << bit)`,
clears it with `byte &= ~(1 << bit)` (complement taken within one byte). -/
def set_bool (b : Nat) (bit : Nat) (v : Bool) : Nat :=
  if v then b ||| (1 <<< bit) else b &&& (255 ^^^ (1 <<< bit))

/-- snap7 `get_bool(bytearray, byte_index, bool_index)` as used by
`PLCConnector.read_bool`: tests the bit `(byte >> bit) & 1`. -/
def get_bool (b : Nat) (bit : Nat) : Bool :=
  b.testBit bit

example : set_bool 0b00000010 0 true = 0b00000011 := by decide
example : set_bool 0b11111111 1 false = 0b11111101 := by decide
example : get_bool 0b00000100 2 = true := by decide

/-- Helper: any bit of `255` (the all-ones byte mask) below 8 is set. -/
theorem testBit_255 (j : Nat) (hj : j < 8) : (255 : Nat).testBit j = true := by
  interval_cases j <;> decide

/-- Helper: `set_bool` leaves every bit other than the targeted one unchanged. -/
theorem set_bool_preserves_other (b i j : Nat) (hj : j < 8) (hij : j ≠ i)
    (v : Bool) : (set_bool b i v).testBit j = b.testBit j := by
  unfold set_bool
  have h1 : (1 <<< i) = 2 ^ i := Nat.one_shiftLeft i
  cases v with
  | true =>
    simp [h1, Nat.testBit_or, Nat.testBit_two_pow]
    omega
  | false =>
    simp [h1, Nat.testBit_and, Nat.testBit_xor, Nat.testBit_two_pow,
      testBit_255 j hj]
    intro h; omega

/-- Helper: reading back the targeted bit after `set_bool` yields the written
value (for bit indices 0-7). -/
theorem get_bool_set_bool (b i : Nat) (hi : i < 8) (v : Bool) :
    get_bool (set_bool b i v) i = v := by
  unfold get_bool set_bool
  have h1 : (1 <<< i) = 2 ^ i := Nat.one_shiftLeft i
  cases v with
  | true => simp [h1, Nat.testBit_or, Nat.testBit_two_pow]
  | false =>
    simp [h1, Nat.testBit_and, Nat.testBit_xor, Nat.testBit_two_pow,
      testBit_255 i hi]

/-! ## DB3 memory and `PLCConnector.write_bool` (docs/PLC.md lines 209-214)

`write_bool` first reads the whole byte from the PLC, modifies the single
targeted bit with `set_bool`, and writes the byte back
(read-then-modify-then-write). DB3 is modelled as offset → byte value. -/

/-- DB3 servo-control block: byte offset → byte value. -/
def Mem : Type := Nat → Nat

/-- `PLCConnector.write_bool(db, byte, bit, value)`: read the byte, set the
bit, write the byte back. -/
def write_bool (mem : Mem) (byte bit : Nat) (v : Bool) : Mem :=
  fun a => if a = byte then set_bool (mem byte) bit v else mem a

/-! ## `CommandService` (docs/PLC.md lines 264-297)

Bit addresses from the `CommandService` constants:
byte 0 = commands (enable .0, jog-forward .1, jog-backward .2, start .3,
stop .4, reset .5, home .6), byte 14 = clamps (upper .0, lower .1),
byte 25 bit 0 = remote mode; jog velocity is the Real at offset 16. -/

/-- `CommandService.jog_forward(state)`: when `state` is true, first clear
`CMD_JOG_BACKWARD` (0,2), then write `CMD_JOG_FORWARD` (0,1) := state. -/
def cmd_jog_forward (st : Bool) (mem : Mem) : Mem :=
  if st then write_bool (write_bool mem 0 2 false) 0 1 st
  else write_bool mem 0 1 st

/-- Modelled from the spec: `CommandService.jog_backward` is not quoted in
docs/PLC.md; the spec states it is symmetric to `jog_forward` ("setting one
clears the other first"): clear `CMD_JOG_FORWARD` (0,1), then write
`CMD_JOG_BACKWARD` (0,2). -/
def cmd_jog_backward (st : Bool) (mem : Mem) : Mem :=
  if st then write_bool (write_bool mem 0 1 false) 0 2 st
  else write_bool mem 0 2 st

/-- `CommandService.set_remote_mode(is_remote)`: write bit (25,0). -/
def cmd_set_remote_mode (v : Bool) (mem : Mem) : Mem :=
  write_bool mem 25 0 v

/-- Big-endian byte split of a 32-bit word, `set_real`'s byte layout
(Siemens Reals are big-endian; the word is the IEEE-754 bit pattern). -/
def encodeReal32 (w : Nat) : Nat × Nat × Nat × Nat :=
  (w / 2 ^ 24 % 256, w / 2 ^ 16 % 256, w / 2 ^ 8 % 256, w % 256)

/-- Big-endian reassembly of a 32-bit word from 4 bytes, `get_real`'s layout. -/
def decodeReal32 (b : Nat × Nat × Nat × Nat) : Nat :=
  b.1 * 2 ^ 24 + b.2.1 * 2 ^ 16 + b.2.2.1 * 2 ^ 8 + b.2.2.2

/-- `CommandService` jog-velocity write: `write_real(3, 16, v)` stores the
4 bytes of the value's bit pattern at offsets 16..19. -/
def writeReal (mem : Mem) (off : Nat) (w : Nat) : Mem :=
  fun a =>
    if a = off then (encodeReal32 w).1
    else if a = off + 1 then (encodeReal32 w).2.1
    else if a = off + 2 then (encodeReal32 w).2.2.1
    else if a = off + 3 then (encodeReal32 w).2.2.2
    else mem a

/-- The `CommandService` write entry points (from the constants table in
docs/PLC.md), tagged by intent. -/
inductive Cmd : Type
  | enable (b : Bool)
  | jogForward (b : Bool)
  | jogBackward (b : Bool)
  | startTest
  | stop
  | reset
  | home
  | lockUpper
  | lockLower
  | unlockAll
  | setRemoteMode (b : Bool)
  | setJogVelocity (w : Nat)
deriving DecidableEq

/-- Effect of each `CommandService` entry point on DB3 (each is one or two
`write_bool` transactions at the offsets of the constants table, or a
`write_real` at offset 16 for the jog velocity). -/
def applyCmd : Cmd → Mem → Mem
  | .enable b, mem => write_bool mem 0 0 b
  | .jogForward b, mem => cmd_jog_forward b mem
  | .jogBackward b, mem => cmd_jog_backward b mem
  | .startTest, mem => write_bool mem 0 3 true
  | .stop, mem => write_bool mem 0 4 true
  | .reset, mem => write_bool mem 0 5 true
  | .home, mem => write_bool mem 0 6 true
  | .lockUpper, mem => write_bool mem 14 0 true
  | .lockLower, mem => write_bool mem 14 1 true
  | .unlockAll, mem => write_bool (write_bool mem 14 0 false) 14 1 false
  | .setRemoteMode b, mem => cmd_set_remote_mode b mem
  | .setJogVelocity w, mem => writeReal mem 16 w

/-! ## Jog write sequences (claim about Control byte 0)

`write_bool` reads byte 0, modifies one bit and writes the whole byte
back, so a `jog_forward`/`jog_backward` call emits one or two byte
writes.  `jogCallWrites` lists the bytes written by one call, in order;
`runJog` threads the byte through a whole call sequence and collects
every written byte. -/

/-- One jog entry point call: `jog_forward(state)` or `jog_backward(state)`. -/
inductive JogCall : Type
  | fwd (st : Bool)
  | bwd (st : Bool)
deriving DecidableEq

/-- The byte-0 values written by a single jog call starting from byte value
`b`, in write order, with the resulting byte value (`CommandService.jog_forward`;
the backward case is the symmetric one, see `cmd_jog_backward`). -/
def jogCallWrites : JogCall → Nat → List Nat × Nat
  | .fwd st, b =>
    if st then
      let w1 := set_bool b 2 false
      let w2 := set_bool w1 1 true
      ([w1, w2], w2)
    else
      let w := set_bool b 1 false
      ([w], w)
  | .bwd st, b =>
    if st then
      let w1 := set_bool b 1 false
      let w2 := set_bool w1 2 true
      ([w1, w2], w2)
    else
      let w := set_bool b 2 false
      ([w], w)

/-- All byte-0 values written by a sequence of jog calls, in order. -/
def runJog : List JogCall → Nat → List Nat
  | [], _ => []
  | c :: cs, b => (jogCallWrites c b).1 ++ runJog cs (jogCallWrites c b).2

/-- A byte value with the jog-forward bit (0.1) and jog-backward bit (0.2)
not simultaneously set. -/
def jogExclusive (w : Nat) : Bool :=
  !(w.testBit 1 && w.testBit 2)

/-! ## Command Arbiter (spec §4.4) and Mode & Safety Supervisor (spec §4.5)

Modelled from the spec: the backend command-validation pipeline is not in
the source tree (only its UI callers and the `CommandService` write layer
are), so the arbiter is defined from §4.4's validation order:
(1) reject all commands if transport disconnected;
(2) reject remote-mode-only commands (jog, start, home, step) if mode is local;
(3) reject all motion commands if e-stop latch active;
and the §4.5 mode lock: SetMode is rejected as ModeLocked while a test is
in the active-motion stage set or a jog is held. -/

/-- The operator command intents (spec §3 `CommandIntent`). -/
inductive Intent : Type
  | setJog (forward : Bool) (pressed : Bool)
  | setJogVelocity (v : ℚ)
  | start
  | stop
  | home
  | reset
  | lockClamp (upper : Bool)
  | unlockAll
  | setMode (remote : Bool)
  | setStepDistance (v : ℚ)
  | step (forward : Bool)
  | tare
  | zeroPosition
deriving DecidableEq

/-- Rejection reasons of spec §4.4 and §4.5. -/
inductive Reason : Type
  | disconnected
  | modeDenied
  | safetyInterlock
  | outOfRange
  | modeLocked
deriving DecidableEq

/-- Outcome of one command submission. -/
inductive Outcome : Type
  | accepted
  | rejected (r : Reason)
deriving DecidableEq

/-- Fields of the published `LiveSnapshot` the arbiter validates against. -/
structure Snapshot : Type where
  connected : Bool
  remoteMode : Bool
  estopLatched : Bool
  testStage : Nat
  jogHeld : Bool
deriving DecidableEq

/-- The active-motion stage set: stages 1-7 of the test state machine
(`useTestStatus.isRunning` in useLiveData.ts counts stages 1..7 as running;
0 = idle, 8 = complete). -/
def activeMotionStage (stage : Nat) : Bool :=
  decide (1 ≤ stage) && decide (stage ≤ 7)

/-- Remote-mode-only commands per spec §4.4 (2): jog, start, home, step. -/
def remoteOnly : Intent → Bool
  | .setJog _ _ => true
  | .start => true
  | .home => true
  | .step _ => true
  | _ => false

/-- Motion-issuing commands: a held jog press, start, home, step. -/
def motionIssuing : Intent → Bool
  | .setJog _ pressed => pressed
  | .start => true
  | .home => true
  | .step _ => true
  | _ => false

/-- Modelled from the spec: the Command Arbiter's submission validation,
in the validation order of §4.4 with the §4.5 mode lock. -/
def submit (snap : Snapshot) (i : Intent) : Outcome :=
  if !snap.connected then .rejected .disconnected
  else if remoteOnly i && !snap.remoteMode then .rejected .modeDenied
  else if motionIssuing i && snap.estopLatched then .rejected .safetyInterlock
  else
    match i with
    | .setMode _ =>
      if activeMotionStage snap.testStage || snap.jogHeld then
        .rejected .modeLocked
      else .accepted
    | _ => .accepted

/-- Modelled from the spec: the Mode & Safety Supervisor's SetMode handling
(§4.5): the transition is performed only when no test is in the
active-motion stage set and no jog is held; otherwise it is rejected as
ModeLocked and the remote-mode bit in DB3 is left untouched. -/
def supervisorSetMode (snap : Snapshot) (req : Bool) (mem : Mem) :
    Outcome × Mem :=
  if activeMotionStage snap.testStage || snap.jogHeld then
    (.rejected .modeLocked, mem)
  else (.accepted, cmd_set_remote_mode req mem)

/-- `ModeSelector.handleModeChange` (ModeSelector.tsx lines 24-31):
`isLocked = isTestRunning || isMoving || isDisabled`; the change callback
fires (with the requested mode) only when not locked. -/
def handleModeChange (isTestRunning isMoving isDisabled : Bool)
    (newRemoteMode : Bool) : Option Bool :=
  if !(isTestRunning || isMoving || isDisabled) then some newRemoteMode
  else none

/-! ## Disconnect fail-safe (spec §4.5)

Modelled from the spec: neither the backend WebSocket disconnect handler
("Jog Auto-Stop: when WebSocket disconnects, all jog movements stop",
docs/PLC.md) nor the socket client is in the source tree, so the
Supervisor's disconnect rule is modelled as a transition system. The state
carries the transport flag, the client-side jog hold, the image of
Control byte 0 and the pending fail-safe obligation; each step returns
the list of byte-0 values written during that step. -/

/-- Jog direction (forward = DBX0.1, backward = DBX0.2). -/
inductive JogDir : Type
  | forward
  | backward
deriving DecidableEq

/-- The Control-byte-0 bit driven by a jog direction. -/
def jogBit : JogDir → Nat
  | .forward => 1
  | .backward => 2

/-- The opposite direction's bit (cleared first on a jog press). -/
def jogOppBit : JogDir → Nat
  | .forward => 2
  | .backward => 1

/-- Events seen by the bridge: operator jog press/release, transport
disconnect, transport reconnect. -/
inductive BridgeEv : Type
  | jogPress (d : JogDir)
  | jogRelease
  | disconnect
  | reconnect
deriving DecidableEq

/-- Bridge state for the fail-safe rule. -/
structure BridgeSt : Type where
  connected : Bool
  clientHold : Option JogDir
  ctrl : Nat
  failSafePending : Bool
deriving DecidableEq

/-- Clear both jog bits of a byte (the fail-safe write). -/
def clearJogBits (b : Nat) : Nat :=
  set_bool (set_bool b 1 false) 2 false

/-- Modelled from the spec: one step of the Supervisor's fail-safe
machine. A jog press while connected performs the usual clear-opposite
then set writes and records the client hold; a release clears the held
bit (or, while disconnected, just drops the client-side hold); a
disconnect drops the hold and arms the fail-safe; the first write after a
reconnect is the fail-safe write clearing all jog bits. -/
def bridgeStep (s : BridgeSt) : BridgeEv → BridgeSt × List Nat
  | .jogPress d =>
    if s.connected then
      let w1 := set_bool s.ctrl (jogOppBit d) false
      let w2 := set_bool w1 (jogBit d) true
      ({ s with clientHold := some d, ctrl := w2 }, [w1, w2])
    else (s, [])
  | .jogRelease =>
    match s.clientHold with
    | some d =>
      if s.connected then
        let w := set_bool s.ctrl (jogBit d) false
        ({ s with clientHold := none, ctrl := w }, [w])
      else ({ s with clientHold := none }, [])
    | none => (s, [])
  | .disconnect =>
    ({ s with connected := false, clientHold := none, failSafePending := true },
      [])
  | .reconnect =>
    if s.connected then (s, [])
    else if s.failSafePending then
      let w := clearJogBits s.ctrl
      ({ s with connected := true, failSafePending := false, ctrl := w }, [w])
    else ({ s with connected := true }, [])

/-- Initial bridge state: connected, no hold, all command bits clear. -/
def bridgeInit : BridgeSt :=
  { connected := true, clientHold := none, ctrl := 0, failSafePending := false }

/-- Run the fail-safe machine over an event trace. -/
def runBridge (evs : List BridgeEv) : BridgeSt :=
  evs.foldl (fun s e => (bridgeStep s e).1) bridgeInit

/-! ## 16-bit integer codec (spec §4.2)

Modelled from the spec: the Memory Codec's integer encoding is snap7's
`get_int`/`set_int` (big-endian two's-complement), external library code. -/

/-- Big-endian two's-complement encoding of a 16-bit signed integer. -/
def encodeInt16 (n : Int) : Nat × Nat :=
  let u := (n % 65536).toNat
  (u / 256 % 256, u % 256)

/-- Big-endian two's-complement decoding of a 16-bit signed integer. -/
def decodeInt16 (b : Nat × Nat) : Int :=
  let u := b.1 * 256 + b.2
  if u < 32768 then (u : Int) else (u : Int) - 65536

/-! ## Numeric keypad (NumericKeypad.tsx)

The keypad builds a value string from digit keys, one optional decimal
point and a sign toggle; `handleConfirm` (lines 61-86) special-cases
`''`/`'-'`/`'.'`, then parses with `parseFloat`, then checks `min` and
`max` in that order, calling `onConfirm` only when every check passes.
`parseKeypad` embeds `parseFloat` on the keypad's character set. -/

/-- Digit-string value: `foldl (a*10 + digit)`. -/
def digitsVal (l : List Char) : Nat :=
  l.foldl (fun a c => a * 10 + (c.toNat - 48)) 0

/-- Parse an unsigned keypad string (digits with at most one `'.'`, at
least one digit) into an exact rational; `none` where `parseFloat` gives
`NaN` on keypad-reachable input. -/
def parseDigits (t : List Char) : Option ℚ :=
  if t.all (fun c => c.isDigit || c == '.') && decide (t.count '.' ≤ 1)
      && t.any (fun c => c.isDigit) then
    let ip := t.takeWhile (fun c => c != '.')
    let fp := (t.dropWhile (fun c => c != '.')).drop 1
    some ((digitsVal ip : ℚ) + (digitsVal fp : ℚ) / (10 : ℚ) ^ fp.length)
  else none

/-- Parse a signed keypad string (`'-'` only as a leading toggle). -/
def parseKeypad : List Char → Option ℚ
  | '-' :: t => (parseDigits t).map (fun q => -q)
  | t => parseDigits t

/-- Why `handleConfirm` refused the input. -/
inductive KeypadError : Type
  | emptyInput
  | invalidNumber
  | belowMin
  | aboveMax
deriving DecidableEq

/-- Result of `handleConfirm`: either an error message is shown and
`onConfirm` is not invoked, or `onConfirm` fires with the entered value
(the confirmed value is transmitted unchanged: `ManualControl` re-parses
the string and forwards it to `setJogSpeed`). -/
inductive KeypadResult : Type
  | rejected (e : KeypadError)
  | confirmed (v : ℚ)
deriving DecidableEq

/-- `NumericKeypad.handleConfirm` (lines 61-86): reject `''`/`'-'`/`'.'`,
reject non-parsing input, reject `value < min` (`Minimum: ...`), reject
`value > max` (`Maximum: ...`), otherwise confirm. -/
def handleConfirm (s : List Char) (mn mx : Option ℚ) : KeypadResult :=
  if s = [] ∨ s = ['-'] ∨ s = ['.'] then .rejected .emptyInput
  else
    match parseKeypad s with
    | none => .rejected .invalidNumber
    | some n =>
      match mn with
      | some m =>
        if n < m then .rejected .belowMin
        else
          match mx with
          | some mM => if mM < n then .rejected .aboveMax else .confirmed n
          | none => .confirmed n
      | none =>
        match mx with
        | some mM => if mM < n then .rejected .aboveMax else .confirmed n
        | none => .confirmed n

example : parseKeypad ['1', '5', '0'] = some 150 := by
  simp [parseKeypad, parseDigits, digitsVal]
example : parseKeypad ['-', '5'] = some (-5) := by
  simp [parseKeypad, parseDigits, digitsVal]
example : parseKeypad ['1', '.', '5'] = some (3 / 2) := by
  simp [parseKeypad, parseDigits, digitsVal]; norm_num
example : parseKeypad ['-', '.'] = none := by
  simp [parseKeypad, parseDigits, digitsVal]
example : handleConfirm ['1', '5', '0'] (some 1) (some 100)
    = .rejected .aboveMax := by
  simp [handleConfirm, parseKeypad, parseDigits, digitsVal]
  norm_num

/-! ## UI gating predicates (Dashboard.tsx, StepControl.tsx)

The frontend pages derive every "is remote" / "disabled" flag from the
last received snapshot and the socket connection flag. -/

/-- The snapshot fields the UI gating predicates consult (`liveData`). -/
structure UiSnapshot : Type where
  remote_mode : Bool
  modeRemote : Bool
  e_stop_active : Bool
  servo_ready : Bool
deriving DecidableEq

/-- `ManualControl` (Dashboard.tsx line 609): `isLocalMode = !liveData.remote_mode`. -/
def manualIsLocalMode (s : UiSnapshot) : Bool := !s.remote_mode

/-- Dashboard variant 1 (line 24): `isLocalMode = !liveData.remote_mode`. -/
def dashboardIsLocalMode (s : UiSnapshot) : Bool := !s.remote_mode

/-- Dashboard variant 2 (line 252):
`isLocalMode = !liveData.remote_mode && !(liveData.mode?.remote)`. -/
def dashboard2IsLocalMode (s : UiSnapshot) : Bool :=
  !s.remote_mode && !s.modeRemote

/-- `StepControl` (line 20):
`isLocalMode = !liveData.remote_mode && !(liveData.mode?.remote)`. -/
def stepIsLocalMode (s : UiSnapshot) : Bool :=
  !s.remote_mode && !s.modeRemote

/-- `ManualControl` (line 610): `jogDisabled = isLocalMode || !isConnected`. -/
def manualJogDisabled (s : UiSnapshot) (isConnected : Bool) : Bool :=
  manualIsLocalMode s || !isConnected

/-- `ManualControl` (line 611): `commandsDisabled = !isConnected`. -/
def manualCommandsDisabled (isConnected : Bool) : Bool := !isConnected

/-- The jog button `disabled` prop (Dashboard.tsx lines 789 and 829):
`jogDisabled || !liveData.servo_ready || isEStopActive`. -/
def manualJogButtonDisabled (s : UiSnapshot) (isConnected : Bool) : Bool :=
  manualJogDisabled s isConnected || !s.servo_ready || s.e_stop_active

/-- `StepControl` (line 44):
`isDisabled = !isConnected || isLocalMode || step.active || !safety.ok`. -/
def stepIsDisabled (s : UiSnapshot) (isConnected stepActive safetyOk : Bool) :
    Bool :=
  !isConnected || stepIsLocalMode s || stepActive || !safetyOk

/-- All-zero DB3 image (used as a concrete evaluation point). -/
def memZero : Mem := fun _ => 0

/-- Connected, local mode, e-stop latched, idle, no jog held. -/
def snapLocalEstop : Snapshot :=
  { connected := true, remoteMode := false, estopLatched := true,
    testStage := 0, jogHeld := false }

/-- Connected, remote mode, e-stop latched, idle, no jog held. -/
def snapRemoteEstop : Snapshot :=
  { connected := true, remoteMode := true, estopLatched := true,
    testStage := 0, jogHeld := false }

/-- Disconnected, remote mode, no e-stop, idle, no jog held. -/
def snapDisconnected : Snapshot :=
  { connected := false, remoteMode := true, estopLatched := false,
    testStage := 0, jogHeld := false }

/-- Connected, local mode, no e-stop, test stage 2 (active motion). -/
def snapStage2 : Snapshot :=
  { connected := true, remoteMode := false, estopLatched := false,
    testStage := 2, jogHeld := false }

/-- Connected, local mode, no e-stop, idle, no jog held. -/
def snapIdle : Snapshot :=
  { connected := true, remoteMode := false, estopLatched := false,
    testStage := 0, jogHeld := false }

/-- DB3 image with every byte `0b00000010` (lower clamp locked at byte 14). -/
def memTwo : Mem := fun _ => 2

/-! ## Claim theorems -/

/-- Helper: every byte written by a single jog call keeps the two jog bits
mutually exclusive, whatever the byte previously held. -/
theorem jogCallWrites_exclusive (c : JogCall) (b : Nat) :
    ∀ w ∈ (jogCallWrites c b).1, jogExclusive w = true := by
  have h21 : ∀ x : Nat, (set_bool x 1 true).testBit 2 = x.testBit 2 :=
    fun x => set_bool_preserves_other x 1 2 (by omega) (by omega) true
  have h12 : ∀ x : Nat, (set_bool x 2 true).testBit 1 = x.testBit 1 :=
    fun x => set_bool_preserves_other x 2 1 (by omega) (by omega) true
  have hc1 : ∀ x : Nat, (set_bool x 1 false).testBit 1 = false :=
    fun x => get_bool_set_bool x 1 (by omega) false
  have hc2 : ∀ x : Nat, (set_bool x 2 false).testBit 2 = false :=
    fun x => get_bool_set_bool x 2 (by omega) false
  cases c with
  | fwd st =>
    cases st with
    | true =>
      intro w hw
      simp [jogCallWrites] at hw
      rcases hw with h | h <;> subst h <;>
        simp [jogExclusive, h21, hc2]
    | false =>
      intro w hw
      simp [jogCallWrites] at hw
      subst hw
      simp [jogExclusive, hc1]
  | bwd st =>
    cases st with
    | true =>
      intro w hw
      simp [jogCallWrites] at hw
      rcases hw with h | h <;> subst h <;>
        simp [jogExclusive, h12, hc1]
    | false =>
      intro w hw
      simp [jogCallWrites] at hw
      subst hw
      simp [jogExclusive, hc2]

/-- Helper: the mutual-exclusion invariant over whole jog call sequences. -/
theorem runJog_exclusive (calls : List JogCall) :
    ∀ b : Nat, ∀ w ∈ runJog calls b, jogExclusive w = true := by
  induction calls with
  | nil => intro b w hw; simp [runJog] at hw
  | cons c cs ih =>
    intro b w hw
    simp only [runJog, List.mem_append] at hw
    rcases hw with h | h
    · exact jogCallWrites_exclusive c b w h
    · exact ih _ w h

/-- C2: over every sequence of jog commands, no byte written to Control
byte 0 ever has the jog-forward bit (0.1) and jog-backward bit (0.2) both
set; `jog_forward(True)` first writes the byte with the backward bit
cleared and only then the byte with the forward bit set (and symmetrically
for `jog_backward(True)`). -/
theorem jog_mutual_exclusion :
    (∀ (calls : List JogCall) (b : Nat), ∀ w ∈ runJog calls b,
      jogExclusive w = true) ∧
    (∀ b : Nat, b.testBit 2 = true →
      (jogCallWrites (.fwd true) b).1 =
        [set_bool b 2 false, set_bool (set_bool b 2 false) 1 true] ∧
      (set_bool b 2 false).testBit 2 = false ∧
      (set_bool (set_bool b 2 false) 1 true).testBit 1 = true) ∧
    (∀ b : Nat, b.testBit 1 = true →
      (jogCallWrites (.bwd true) b).1 =
        [set_bool b 1 false, set_bool (set_bool b 1 false) 2 true] ∧
      (set_bool b 1 false).testBit 1 = false ∧
      (set_bool (set_bool b 1 false) 2 true).testBit 2 = true) := by
  refine ⟨fun calls b => runJog_exclusive calls b, ?_, ?_⟩
  · intro b _
    exact ⟨by simp [jogCallWrites],
      get_bool_set_bool b 2 (by omega) false,
      get_bool_set_bool _ 1 (by omega) true⟩
  · intro b _
    exact ⟨by simp [jogCallWrites],
      get_bool_set_bool b 1 (by omega) false,
      get_bool_set_bool _ 2 (by omega) true⟩

/-- Witness for C2: a concrete run of the hypothesis-bearing conjuncts at
byte `0b00000100` (backward held) and `0b00000010` (forward held). -/
theorem jog_mutual_exclusion_witness :
    (Nat.testBit 4 2 = true ∧
      (jogCallWrites (.fwd true) 4).1 =
        [set_bool 4 2 false, set_bool (set_bool 4 2 false) 1 true]) ∧
    (Nat.testBit 2 1 = true ∧
      (jogCallWrites (.bwd true) 2).1 =
        [set_bool 2 1 false, set_bool (set_bool 2 1 false) 2 true]) :=
  ⟨⟨by decide, (jog_mutual_exclusion.2.1 4 (by decide)).1⟩,
   ⟨by decide, (jog_mutual_exclusion.2.2 2 (by decide)).1⟩⟩

/-- C5: `PLCConnector.write_bool` reads the whole byte, modifies only the
targeted bit and writes it back, so the other 7 bits of the byte and every
other byte are unchanged; in particular `LockClamp(Upper)` on clamp byte 14
holding `0b00000010` yields `0b00000011`. -/
theorem write_bool_frame (mem : Mem) (byte bit j : Nat) (v : Bool)
    (hj : j < 8) (hne : j ≠ bit) :
    ((write_bool mem byte bit v) byte).testBit j = (mem byte).testBit j ∧
    (∀ a, a ≠ byte → write_bool mem byte bit v a = mem a) ∧
    (∀ m : Mem, m 14 = 0b00000010 → applyCmd .lockUpper m 14 = 0b00000011) := by
  refine ⟨?_, ?_, ?_⟩
  · simp only [write_bool, if_pos rfl]
    exact set_bool_preserves_other (mem byte) bit j hj hne v
  · intro a ha
    simp [write_bool, ha]
  · intro m hm
    simp [applyCmd, write_bool, hm]
    decide

/-- Witness for C5: byte 14, targeted bit 0, probed bit 1, on the DB3 image
whose every byte is `0b00000010`. -/
theorem write_bool_frame_witness :
    (1 < 8 ∧ 1 ≠ 0) ∧
    ((write_bool memTwo 14 0 true) 14).testBit 1 = (memTwo 14).testBit 1 :=
  ⟨⟨by decide, by decide⟩,
   (write_bool_frame memTwo 14 0 1 true (by decide) (by decide)).1⟩

/-- C9: the codec round-trips: reassembling the 4 big-endian bytes of any
32-bit word (the bit pattern of a representable IEEE-754 binary32 float)
restores the word; the 16-bit signed big-endian integer codec restores
every value in [-32768, 32767]; and reading back a written bit yields the
written value for every byte and bit index. -/
theorem codec_round_trip :
    (∀ w : Nat, w < 2 ^ 32 → decodeReal32 (encodeReal32 w) = w) ∧
    (∀ n : Int, -32768 ≤ n → n ≤ 32767 → decodeInt16 (encodeInt16 n) = n) ∧
    (∀ b i : Nat, i < 8 → ∀ v : Bool, get_bool (set_bool b i v) i = v) := by
  refine ⟨?_, ?_, ?_⟩
  · intro w hw
    simp only [encodeReal32, decodeReal32]
    omega
  · intro n h1 h2
    simp only [encodeInt16, decodeInt16]
    omega
  · intro b i hi v
    exact get_bool_set_bool b i hi v

/-- Witness for C9: the three round trips at `w = 0xDEADBEEF`,
`n = -12345`, and byte `0b10101010` bit 3. -/
theorem codec_round_trip_witness :
    decodeReal32 (encodeReal32 0xDEADBEEF) = 0xDEADBEEF ∧
    decodeInt16 (encodeInt16 (-12345)) = -12345 ∧
    get_bool (set_bool 0b10101010 3 true) 3 = true :=
  ⟨codec_round_trip.1 0xDEADBEEF (by decide),
   codec_round_trip.2.1 (-12345) (by decide) (by decide),
   codec_round_trip.2.2 0b10101010 3 (by decide) true⟩

/-- Helper: every motion-issuing command is remote-mode-only (§4.4 lists
jog, start, home, step under both checks). -/
theorem motionIssuing_remoteOnly (i : Intent) :
    motionIssuing i = true → remoteOnly i = true := by
  cases i <;> simp [motionIssuing, remoteOnly]

/-- C1 counterexample: with the transport connected, mode local and the
e-stop latch set, `Start` is rejected as `ModeDenied` — the mode check of
validation step (2) fires before the e-stop check of step (3) — not as
`SafetyInterlock`, contradicting "rejected with reason SafetyInterlock
regardless of whether the mode is local or remote". -/
theorem estop_local_mode_counterexample :
    submit snapLocalEstop .start = .rejected .modeDenied ∧
    Outcome.rejected .modeDenied ≠ Outcome.rejected .safetyInterlock := by
  constructor <;> decide

/-- C1 (amended): with the e-stop latch active in the current snapshot, no
motion-issuing command (jog press, start, home, step) is ever accepted, in
either mode; when the transport is connected and the mode is remote the
rejection reason is `SafetyInterlock`, while in local mode the earlier
mode check yields `ModeDenied`; the `ManualControl` jog buttons are also
disabled whenever the snapshot carries an active e-stop. -/
theorem estop_blocks_motion (snap : Snapshot) (i : Intent)
    (hm : motionIssuing i = true) (he : snap.estopLatched = true) :
    submit snap i ≠ .accepted ∧
    (snap.connected = true → snap.remoteMode = true →
      submit snap i = .rejected .safetyInterlock) ∧
    (snap.connected = true → snap.remoteMode = false →
      submit snap i = .rejected .modeDenied) ∧
    (∀ (s : UiSnapshot) (isConnected : Bool), s.e_stop_active = true →
      manualJogButtonDisabled s isConnected = true) := by
  obtain ⟨c, r, e, ts, j⟩ := snap
  simp only at he
  subst he
  refine ⟨?_, ?_, ?_, ?_⟩
  · cases c with
    | false => simp [submit]
    | true =>
      cases r with
      | false => simp [submit, hm, motionIssuing_remoteOnly i hm]
      | true => simp [submit, hm]
  · intro hc hr
    simp only at hc hr
    subst hc; subst hr
    simp [submit, hm]
  · intro hc hr
    simp only at hc hr
    subst hc; subst hr
    simp [submit, hm, motionIssuing_remoteOnly i hm]
  · intro s isConnected hs
    simp [manualJogButtonDisabled, hs]

/-- Witness for C1 (amended): `Start` under e-stop in remote and in local
mode. -/
theorem estop_blocks_motion_witness :
    (motionIssuing .start = true ∧
      submit snapRemoteEstop .start = .rejected .safetyInterlock) ∧
    submit snapLocalEstop .start ≠ .accepted :=
  ⟨⟨by decide,
    (estop_blocks_motion snapRemoteEstop .start (by decide) (by decide)).2.1
      rfl rfl⟩,
   (estop_blocks_motion snapLocalEstop .start (by decide) (by decide)).1⟩

/-- C4: with `connected = false` in the latest snapshot, every command
intent is rejected as `Disconnected` by the first validation step, and the
in-tree UI gates agree: `ManualControl.commandsDisabled` and
`StepControl.isDisabled` are true whenever the socket is disconnected. -/
theorem disconnected_rejects_all (snap : Snapshot) (i : Intent)
    (h : snap.connected = false) :
    submit snap i = .rejected .disconnected ∧
    manualCommandsDisabled false = true ∧
    (∀ (s : UiSnapshot) (stepActive safetyOk : Bool),
      stepIsDisabled s false stepActive safetyOk = true) := by
  refine ⟨?_, by decide, ?_⟩
  · simp [submit, h]
  · intro s stepActive safetyOk
    simp [stepIsDisabled]

/-- Witness for C4: a disconnected snapshot with a `Start` submission. -/
theorem disconnected_rejects_all_witness :
    submit snapDisconnected .start = .rejected .disconnected :=
  (disconnected_rejects_all snapDisconnected .start rfl).1

/-- C7: `SetMode` is performed only when no test is in the active-motion
stage set (stages 1-7) and no jog is held; otherwise it is rejected as
`ModeLocked` with the remote-mode bit in DB3 untouched; the in-tree
`ModeSelector.handleModeChange` likewise fires its callback only when not
locked. -/
theorem set_mode_locked (snap : Snapshot) (req : Bool) (mem : Mem) :
    ((activeMotionStage snap.testStage || snap.jogHeld) = true →
      supervisorSetMode snap req mem = (.rejected .modeLocked, mem)) ∧
    ((activeMotionStage snap.testStage || snap.jogHeld) = false →
      (supervisorSetMode snap req mem).1 = .accepted ∧
      get_bool ((supervisorSetMode snap req mem).2 25) 0 = req) ∧
    (∀ isTestRunning isMoving isDisabled newMode : Bool,
      handleModeChange isTestRunning isMoving isDisabled newMode
        = if isTestRunning || isMoving || isDisabled then none
          else some newMode) := by
  refine ⟨?_, ?_, ?_⟩
  · intro h
    simp [supervisorSetMode, h]
  · intro h
    constructor
    · simp [supervisorSetMode, h]
    · simp only [supervisorSetMode, h, Bool.false_eq_true, if_false,
        cmd_set_remote_mode, write_bool, if_pos rfl]
      exact get_bool_set_bool (mem 25) 0 (by omega) req
  · intro isTestRunning isMoving isDisabled newMode
    cases isTestRunning <;> cases isMoving <;> cases isDisabled <;>
      simp [handleModeChange]

/-- Witness for C7: a snapshot in stage 2 (active motion) rejects the mode
change and leaves DB3 untouched; an idle snapshot accepts it. -/
theorem set_mode_locked_witness :
    ((activeMotionStage 2 || false) = true ∧
      supervisorSetMode snapStage2 true memZero
        = (.rejected .modeLocked, memZero)) ∧
    get_bool ((supervisorSetMode snapIdle true memZero).2 25) 0 = true :=
  ⟨⟨by decide, (set_mode_locked snapStage2 true memZero).1 (by decide)⟩,
   ((set_mode_locked snapIdle true memZero).2.1 (by decide)).2⟩

/-- C8: the remote-mode bit DBX25.0 is written by no `CommandService`
entry point other than `set_remote_mode` (every other command's writes
touch only bytes 0, 14 or 16-19), and every UI "is local/remote" read is a
function of the published snapshot's mode fields alone (the local-state
`setRemoteMode` updater in useLiveData.ts has no caller). -/
theorem remote_mode_single_writer :
    (∀ (mem : Mem) (c : Cmd), (∀ b, c ≠ .setRemoteMode b) →
      get_bool ((applyCmd c mem) 25) 0 = get_bool (mem 25) 0) ∧
    (∀ s t : UiSnapshot, s.remote_mode = t.remote_mode →
      s.modeRemote = t.modeRemote →
      manualIsLocalMode s = manualIsLocalMode t ∧
      dashboardIsLocalMode s = dashboardIsLocalMode t ∧
      dashboard2IsLocalMode s = dashboard2IsLocalMode t ∧
      stepIsLocalMode s = stepIsLocalMode t) := by
  constructor
  · intro mem c h
    cases c with
    | setRemoteMode b => exact absurd rfl (h b)
    | jogForward b =>
      cases b <;> simp [applyCmd, cmd_jog_forward, write_bool]
    | jogBackward b =>
      cases b <;> simp [applyCmd, cmd_jog_backward, write_bool]
    | setJogVelocity w => simp [applyCmd, writeReal]
    | _ => simp [applyCmd, write_bool]
  · intro s t h1 h2
    simp [manualIsLocalMode, dashboardIsLocalMode, dashboard2IsLocalMode,
      stepIsLocalMode, h1, h2]

/-- Witness for C8: `start_test` on the all-zero DB3 image leaves the
remote-mode bit unchanged. -/
theorem remote_mode_single_writer_witness :
    get_bool ((applyCmd .startTest memZero) 25) 0 = get_bool (memZero 25) 0 :=
  remote_mode_single_writer.1 memZero .startTest (by decide)

/-- Helper: the fail-safe write clears both jog bits of any byte. -/
theorem clearJogBits_clears (b : Nat) :
    (clearJogBits b).testBit 1 = false ∧ (clearJogBits b).testBit 2 = false := by
  unfold clearJogBits
  constructor
  · rw [set_bool_preserves_other _ 2 1 (by omega) (by omega) false]
    exact get_bool_set_bool b 1 (by omega) false
  · exact get_bool_set_bool _ 2 (by omega) false

/-- The fail-safe invariant: while disconnected, the fail-safe write is
armed and no client-side jog hold survives. -/
def bridgeSafe (s : BridgeSt) : Prop :=
  s.connected = false → s.failSafePending = true ∧ s.clientHold = none

/-- Helper: every bridge step preserves the fail-safe invariant. -/
theorem bridgeStep_safe (s : BridgeSt) (e : BridgeEv) (hs : bridgeSafe s) :
    bridgeSafe (bridgeStep s e).1 := by
  cases e with
  | jogPress d =>
    by_cases hc : s.connected
    · intro h
      simp [bridgeStep, hc] at h
    · simpa [bridgeStep, hc] using hs
  | jogRelease =>
    cases hh : s.clientHold with
    | none => simpa [bridgeStep, hh] using hs
    | some d =>
      by_cases hc : s.connected
      · intro h
        simp [bridgeStep, hh, hc] at h
      · intro _
        have := hs (by simpa using hc)
        simp [bridgeStep, hh, hc, this.1]
  | disconnect =>
    intro _
    simp [bridgeStep]
  | reconnect =>
    by_cases hc : s.connected
    · simpa [bridgeStep, hc] using hs
    · by_cases hp : s.failSafePending
      · intro h
        simp [bridgeStep, hc, hp] at h
      · intro h
        simp [bridgeStep, hc, hp] at h

/-- Helper: the fail-safe invariant holds in every reachable bridge state. -/
theorem runBridge_safe (evs : List BridgeEv) : bridgeSafe (runBridge evs) := by
  have hgen : ∀ (l : List BridgeEv) (s : BridgeSt), bridgeSafe s →
      bridgeSafe (l.foldl (fun s e => (bridgeStep s e).1) s) := by
    intro l
    induction l with
    | nil => intro s hs; exact hs
    | cons e es ih => intro s hs; exact ih _ (bridgeStep_safe s e hs)
  have hinit : bridgeSafe bridgeInit := by
    intro h
    simp [bridgeInit] at h
  exact hgen evs bridgeInit hinit

/-- C3: in every reachable state that is disconnected — in particular
after a disconnect while a jog was asserted — the client-side hold is
already cleared, and the first write issued at reconnect is the fail-safe
write, whose byte has both jog bits clear: no jog command stays latched
across a disconnect boundary. -/
theorem disconnect_fail_safe (evs : List BridgeEv)
    (h : (runBridge evs).connected = false) :
    (runBridge evs).clientHold = none ∧
    (bridgeStep (runBridge evs) .reconnect).2
      = [clearJogBits (runBridge evs).ctrl] ∧
    (∀ w ∈ (bridgeStep (runBridge evs) .reconnect).2,
      w.testBit 1 = false ∧ w.testBit 2 = false) := by
  obtain ⟨hp, hh⟩ := runBridge_safe evs h
  refine ⟨hh, ?_, ?_⟩
  · simp [bridgeStep, h, hp]
  · intro w hw
    simp [bridgeStep, h, hp] at hw
    subst hw
    exact clearJogBits_clears _

/-- A trace that asserts a forward jog and then loses the transport. -/
def traceJogDrop : List BridgeEv := [.jogPress .forward, .disconnect]

/-- Witness for C3: after a forward jog followed by a disconnect, the
reconnect's first write carries no jog bit. -/
theorem disconnect_fail_safe_witness :
    (runBridge traceJogDrop).connected = false ∧
    (bridgeStep (runBridge traceJogDrop) .reconnect).2
      = [clearJogBits (runBridge traceJogDrop).ctrl] :=
  ⟨by decide, (disconnect_fail_safe traceJogDrop (by decide)).2.1⟩

/-- C6 counterexample: with configured range [1,100], the keypad confirm
handler rejects 150 with a `Maximum` error and rejects -5 with a `Minimum`
error; `onConfirm` is not invoked, so nothing is transmitted — the input is
rejected, not clamped to 100 (resp. 1). -/
theorem velocity_clamp_counterexample :
    handleConfirm ['1', '5', '0'] (some 1) (some 100)
      = .rejected .aboveMax ∧
    handleConfirm ['-', '5'] (some 1) (some 100)
      = .rejected .belowMin := by
  constructor <;>
    · simp [handleConfirm, parseKeypad, parseDigits, digitsVal]
      norm_num

/-- C6 (amended): the keypad validates rather than clamps: an entered
jog-velocity inside [min, max] is confirmed and transmitted unchanged,
while input below min (resp. above max) is rejected with a `Minimum`
(resp. `Maximum`) error and never transmitted. -/
theorem velocity_validated_not_clamped (s : List Char) (q mn mx : ℚ)
    (hp : parseKeypad s = some q) :
    (mn ≤ q → q ≤ mx →
      handleConfirm s (some mn) (some mx) = .confirmed q) ∧
    (q < mn → handleConfirm s (some mn) (some mx) = .rejected .belowMin) ∧
    (mn ≤ q → mx < q →
      handleConfirm s (some mn) (some mx) = .rejected .aboveMax) := by
  have hesc : ¬(s = [] ∨ s = ['-'] ∨ s = ['.']) := by
    rintro (rfl | rfl | rfl) <;> simp [parseKeypad, parseDigits] at hp
  refine ⟨?_, ?_, ?_⟩
  · intro h1 h2
    simp [handleConfirm, hesc, hp, if_neg (not_lt.mpr h1),
      if_neg (not_lt.mpr h2)]
  · intro h1
    simp [handleConfirm, hesc, hp, if_pos h1]
  · intro h1 h2
    simp [handleConfirm, hesc, hp, if_neg (not_lt.mpr h1), if_pos h2]

/-- Witness for C6 (amended): 50 entered with range [1,100] is confirmed
as exactly 50. -/
theorem velocity_validated_witness :
    parseKeypad ['5', '0'] = some 50 ∧
    handleConfirm ['5', '0'] (some 1) (some 100) = .confirmed 50 :=
  ⟨by simp [parseKeypad, parseDigits, digitsVal],
   (velocity_validated_not_clamped ['5', '0'] 50 1 100
     (by simp [parseKeypad, parseDigits, digitsVal])).1
     (by norm_num) (by norm_num)⟩

/-- C10: `handleConfirm` invokes `onConfirm` exactly when the entered
string parses to a number within the configured [min, max]; empty,
non-numeric or out-of-range input produces an error and no confirmation. -/
theorem keypad_confirm_iff (s : List Char) (mn mx v : ℚ) :
    handleConfirm s (some mn) (some mx) = .confirmed v ↔
      (parseKeypad s = some v ∧ mn ≤ v ∧ v ≤ mx) := by
  by_cases hesc : s = [] ∨ s = ['-'] ∨ s = ['.']
  · constructor
    · intro h
      simp [handleConfirm, hesc] at h
    · rintro ⟨hp, -, -⟩
      rcases hesc with rfl | rfl | rfl <;>
        simp [parseKeypad, parseDigits] at hp
  · cases hp : parseKeypad s with
    | none =>
      constructor
      · intro h
        simp [handleConfirm, hesc, hp] at h
      · rintro ⟨hv, -, -⟩
        exact absurd hv (by simp)
    | some n =>
      by_cases h1 : n < mn
      · constructor
        · intro h
          simp [handleConfirm, hesc, hp, if_pos h1] at h
        · rintro ⟨hv, hmn, -⟩
          injection hv with hv
          subst hv
          exact absurd h1 (not_lt.mpr hmn)
      · by_cases h2 : mx < n
        · constructor
          · intro h
            simp [handleConfirm, hesc, hp, if_neg h1, if_pos h2] at h
          · rintro ⟨hv, -, hmx⟩
            injection hv with hv
            subst hv
            exact absurd h2 (not_lt.mpr hmx)
        · constructor
          · intro h
            simp [handleConfirm, hesc, hp, if_neg h1, if_neg h2] at h
            exact ⟨by rw [h], by rw [← h]; exact not_lt.mp h1,
              by rw [← h]; exact not_lt.mp h2⟩
          · rintro ⟨hv, -, -⟩
            injection hv with hv
            subst hv
            simp [handleConfirm, hesc, hp, if_neg h1, if_neg h2]

end GRP
